import Mathlib

set_option linter.unusedVariables false

/-!
Shallow embedding of the core controllers of the walletconnect monorepo
(packages/core/src/controllers): the Publisher (outbound delivery queue with
heartbeat resubmission), the JsonRpcHistory (request/response ledger) and the
Expirer (TTL garbage collector).  JavaScript `Map` objects are modelled as
association lists with `Map.set` / `Map.delete` / `Map.get` semantics; the
relay transport and the content hash are external collaborators and appear as
function parameters; async operations are modelled by their observable effect
on the state together with the list of events they emit.
-/

/-- Embedding of `Map.get(k)`: first binding of `k`, if any. -/
def mapGet {κ α : Type} [DecidableEq κ] : List (κ × α) → κ → Option α
  | [], _ => none
  | (k1, v) :: rest, k => if k1 = k then some v else mapGet rest k

/-- Embedding of `Map.set(k, v)`: replace in place if the key exists, else append. -/
def mapSet {κ α : Type} [DecidableEq κ] : List (κ × α) → κ → α → List (κ × α)
  | [], k, v => [(k, v)]
  | (k1, v1) :: rest, k, v =>
    if k1 = k then (k, v) :: rest else (k1, v1) :: mapSet rest k v

/-- Embedding of `Map.delete(k)`: remove every binding of `k`. -/
def mapDelete {κ α : Type} [DecidableEq κ] : List (κ × α) → κ → List (κ × α)
  | [], _ => []
  | (k1, v1) :: rest, k =>
    if k1 = k then mapDelete rest k else (k1, v1) :: mapDelete rest k

namespace Publisher

/-- Embedding of `RelayerTypes.ProtocolOptions`. -/
structure ProtocolOptions where
  protocol : String
deriving DecidableEq, Repr

/-- The optional `opts` argument of `Publisher.publish`. -/
structure PublishOptions where
  ttl : Option Nat := none
  relay : Option ProtocolOptions := none
  prompt : Option Bool := none
deriving DecidableEq, Repr

/-- Embedding of `PUBLISHER_DEFAULT_TTL` from the core constants (one day, in seconds);
the claims only depend on the resolved ttl being this constant. -/
def PUBLISHER_DEFAULT_TTL : Nat := 86400

/-- Default relay protocol returned by `getRelayProtocolName` when no
protocol options are supplied (external util). -/
def RELAYER_DEFAULT_PROTOCOL : ProtocolOptions := { protocol := "waku" }

/-- Embedding of `getRelayProtocolName(opts)` (external util): `opts?.relay` or default. -/
def getRelayProtocolName (opts : Option PublishOptions) : ProtocolOptions :=
  match opts with
  | none => RELAYER_DEFAULT_PROTOCOL
  | some o => o.relay.getD RELAYER_DEFAULT_PROTOCOL

/-- Embedding of `opts?.ttl || PUBLISHER_DEFAULT_TTL`: a missing or zero (JS-falsy) ttl
resolves to the default. -/
def resolveTtl (opts : Option PublishOptions) : Nat :=
  match opts with
  | none => PUBLISHER_DEFAULT_TTL
  | some o =>
    match o.ttl with
    | none => PUBLISHER_DEFAULT_TTL
    | some t => if t = 0 then PUBLISHER_DEFAULT_TTL else t

/-- Embedding of `opts?.prompt || false`. -/
def resolvePrompt (opts : Option PublishOptions) : Bool :=
  match opts with
  | none => false
  | some o => o.prompt.getD false

/-- The `opts` component of a queued `PublisherTypes.Params`. -/
structure ParamsOpts where
  ttl : Nat
  relay : ProtocolOptions
  prompt : Bool
deriving DecidableEq, Repr

/-- Embedding of `PublisherTypes.Params`: the queue entry `{topic, message, opts}`. -/
structure Params where
  topic : String
  message : String
  opts : ParamsOpts
deriving DecidableEq, Repr

/-- Params of the outgoing relay publish request; `prompt = none` means the
field was deleted from the request (omitted entirely). -/
structure PublishRequestParams where
  topic : String
  message : String
  ttl : Nat
  prompt : Option Bool
deriving DecidableEq, Repr

/-- The outgoing relay request `{method, params}`. -/
structure RelayRequest where
  method : String
  params : PublishRequestParams
deriving DecidableEq, Repr

/-- Embedding of `getRelayProtocolApi(protocol).publish` (external util): the publish
method name for the selected relay protocol. -/
def getRelayProtocolApi (protocol : String) : String :=
  protocol ++ "_publish"

/-- Embedding of `Publisher.rpcPublish`: builds the relay request; the `prompt` field is
deleted from the params exactly when the argument is `undefined`. -/
def rpcPublish (topic message : String) (ttl : Nat) (relay : ProtocolOptions)
    (prompt : Option Bool) : RelayRequest :=
  { method := getRelayProtocolApi relay.protocol
    params := { topic := topic, message := message, ttl := ttl, prompt := prompt } }

/-- The publisher queue, keyed by message fingerprint. -/
abbrev Queue := List (String × Params)

/-- One observable step of `Publisher.publish`, in execution order. -/
inductive PublishStep where
  | queueInsert (hash : String) (params : Params)
  | transportSubmit (request : RelayRequest)
  | queueDelete (hash : String)
deriving DecidableEq, Repr

/-- Result of one `Publisher.publish` call. -/
structure PublishResult where
  queue : Queue
  trace : List PublishStep
  request : RelayRequest
  outcome : Except String Unit
deriving Repr

/-- Embedding of `Publisher.publish(topic, message, opts)`: resolve options, queue the
entry under the message fingerprint, submit to the transport, and on success
delete the fingerprint (`onPublish`); a transport error is re-raised.
`hashMessage` (external util) and the transport outcome are parameters. -/
def publish (hashMessage : String → String) (queue : Queue) (topic message : String)
    (opts : Option PublishOptions) (transport : Except String Unit) : PublishResult :=
  let ttl := resolveTtl opts
  let relay := getRelayProtocolName opts
  let prompt := resolvePrompt opts
  let params : Params :=
    { topic := topic, message := message
      opts := { ttl := ttl, relay := relay, prompt := prompt } }
  let hash := hashMessage message
  let queue1 := mapSet queue hash params
  let request := rpcPublish topic message ttl relay (some prompt)
  match transport with
  | Except.ok _ =>
    { queue := mapDelete queue1 hash
      trace := [PublishStep.queueInsert hash params, PublishStep.transportSubmit request,
                PublishStep.queueDelete hash]
      request := request
      outcome := Except.ok () }
  | Except.error e =>
    { queue := queue1
      trace := [PublishStep.queueInsert hash params, PublishStep.transportSubmit request]
      request := request
      outcome := Except.error e }

/-- The request re-submitted for a queued entry by `Publisher.checkQueue`:
`rpcPublish(topic, message, ttl, relay)` with no `prompt` argument. -/
def retryRequest (p : Params) : RelayRequest :=
  rpcPublish p.topic p.message p.opts.ttl p.opts.relay none

/-- Iteration of `Publisher.checkQueue` over a snapshot of the queue:
re-submit each entry and delete its fingerprint on success. -/
def checkQueueGo (hashMessage : String → String)
    (transport : RelayRequest → Except String Unit) :
    List (String × Params) → Queue → Queue × List RelayRequest
  | [], acc => (acc, [])
  | (_, p) :: rest, acc =>
    let request := retryRequest p
    let hash := hashMessage p.message
    let acc1 := match transport request with
      | Except.ok _ => mapDelete acc hash
      | Except.error _ => acc
    let next := checkQueueGo hashMessage transport rest acc1
    (next.1, request :: next.2)

/-- Embedding of `Publisher.checkQueue`: the heartbeat sweep over the whole queue. -/
def checkQueue (hashMessage : String → String) (queue : Queue)
    (transport : RelayRequest → Except String Unit) : Queue × List RelayRequest :=
  checkQueueGo hashMessage transport queue queue

end Publisher

/-- Outcome of a `restore` run (shared by JsonRpcHistory and Expirer):
no persisted value, an empty persisted list, a refused restore into a
non-empty live index (error built and logged, then swallowed by the
`catch`), or a successful staging of the persisted data. -/
inductive RestoreOutcome where
  | noData
  | emptyData
  | conflictLogged
  | restored
deriving DecidableEq, Repr

namespace History

/-- Embedding of `HISTORY_CONTEXT` constant (the component name used in errors). -/
def HISTORY_CONTEXT : String := "history"

/-- A JSON-ish value for request params, with JS truthiness. -/
inductive JsParams where
  | undef
  | null
  | str (s : String)
deriving DecidableEq, Repr

/-- JS truthiness of a params value. -/
def JsParams.truthy : JsParams → Bool
  | JsParams.undef => false
  | JsParams.null => false
  | JsParams.str s => s != ""

/-- Embedding of `params || null`. -/
def JsParams.orNull (p : JsParams) : JsParams :=
  if p.truthy then p else JsParams.null

/-- The stored `request` component of a record: `{method, params}`. -/
structure RequestBody where
  method : String
  params : JsParams
deriving DecidableEq, Repr

/-- A JSON-RPC error body. -/
structure ErrorBody where
  code : Int
  message : String
deriving DecidableEq, Repr

/-- The stored response of a record: exactly one of `{error}` / `{result}`. -/
inductive StoredResponse where
  | errorResp (error : ErrorBody)
  | resultResp (result : Option String)
deriving DecidableEq, Repr

/-- Embedding of `JsonRpcRecord`. -/
structure JsonRpcRecord where
  id : Nat
  topic : String
  request : RequestBody
  chainId : Option String
  response : Option StoredResponse := none
deriving DecidableEq, Repr

/-- An incoming JSON-RPC request `{id, method, params}`. -/
structure JsonRpcRequest where
  id : Nat
  method : String
  params : JsParams
deriving DecidableEq, Repr

/-- An incoming JSON-RPC response: `error` present iff error-shaped. -/
structure JsonRpcResponse where
  id : Nat
  error : Option ErrorBody := none
  result : Option String := none
deriving DecidableEq, Repr

/-- Embedding of `isJsonRpcError(response)` (external util): the `error` key is present. -/
def isJsonRpcError (r : JsonRpcResponse) : Bool := r.error.isSome

/-- The records map, keyed by correlation id. -/
abbrev Records := List (Nat × JsonRpcRecord)

/-- Events emitted by JsonRpcHistory. -/
inductive HistoryEvent where
  | created (record : JsonRpcRecord)
  | updated (record : JsonRpcRecord)
  | deleted (record : JsonRpcRecord)
deriving DecidableEq, Repr

/-- The record built by `JsonRpcHistory.set`. -/
def mkRecord (topic : String) (request : JsonRpcRequest) (chainId : Option String) :
    JsonRpcRecord :=
  { id := request.id, topic := topic
    request := { method := request.method, params := request.params.orNull }
    chainId := chainId, response := none }

/-- Embedding of `JsonRpcHistory.set(topic, request, chainId)`: no-op when the id exists,
else store the record and emit `created`. -/
def set (records : Records) (topic : String) (request : JsonRpcRequest)
    (chainId : Option String) : Records × List HistoryEvent :=
  if (mapGet records request.id).isSome then (records, [])
  else
    let record := mkRecord topic request chainId
    (mapSet records record.id record, [HistoryEvent.created record])

/-- Classification done by `JsonRpcHistory.resolve`: store `{error}` for an
error-shaped response and `{result}` otherwise. -/
def classifyResponse (response : JsonRpcResponse) : StoredResponse :=
  match response.error with
  | some e => StoredResponse.errorResp e
  | none => StoredResponse.resultResp response.result

/-- Embedding of `JsonRpcHistory.resolve(response)`: no-op when the id is unknown or the
record already has a response; else write the response once and emit
`updated`. -/
def resolve (records : Records) (response : JsonRpcResponse) :
    Records × List HistoryEvent :=
  match mapGet records response.id with
  | none => (records, [])
  | some record =>
    match record.response with
    | some _ => (records, [])
    | none =>
      let record1 := { record with response := some (classifyResponse response) }
      (mapSet records record1.id record1, [HistoryEvent.updated record1])

/-- Errors raised by JsonRpcHistory operations. -/
inductive HistoryError where
  | noMatchingId (context : String) (id : Nat)
  | mismatchedTopic (context : String) (id : Nat)
  | notInitialized (context : String)
deriving DecidableEq, Repr

/-- Embedding of `JsonRpcHistory.getRecord(id)`: throw `NO_MATCHING_ID` when absent. -/
def getRecord (records : Records) (id : Nat) : Except HistoryError JsonRpcRecord :=
  match mapGet records id with
  | none => Except.error (HistoryError.noMatchingId HISTORY_CONTEXT id)
  | some record => Except.ok record

/-- Embedding of `JsonRpcHistory.get(topic, id)`: lookup by id, then throw
`MISMATCHED_TOPIC` when the stored topic differs from the argument. -/
def get (records : Records) (topic : String) (id : Nat) :
    Except HistoryError JsonRpcRecord :=
  match getRecord records id with
  | Except.error e => Except.error e
  | Except.ok record =>
    if record.topic ≠ topic then
      Except.error (HistoryError.mismatchedTopic HISTORY_CONTEXT id)
    else Except.ok record

/-- Embedding of `formatJsonRpcRequest(method, params, id)` (external util). -/
structure FormattedRequest where
  id : Nat
  jsonrpc : String
  method : String
  params : JsParams
deriving DecidableEq, Repr

/-- Embedding of `formatJsonRpcRequest(method, params, id)` (external util). -/
def formatJsonRpcRequest (method : String) (params : JsParams) (id : Nat) :
    FormattedRequest :=
  { id := id, jsonrpc := "2.0", method := method, params := params }

/-- Embedding of `RequestEvent`: the replay envelope synthesized by `pending`. -/
structure RequestEvent where
  topic : String
  request : FormattedRequest
  chainId : Option String
deriving DecidableEq, Repr

/-- The envelope `pending` builds for one record. -/
def toRequestEvent (record : JsonRpcRecord) : RequestEvent :=
  { topic := record.topic
    request := formatJsonRpcRequest record.request.method record.request.params record.id
    chainId := record.chainId }

/-- Embedding of `JsonRpcHistory.values`: the records in map order. -/
def valuesOf (records : Records) : List JsonRpcRecord := records.map (fun kv => kv.2)

/-- The `pending` getter: one envelope per record with no response,
recomputed from the current records. -/
def pending (records : Records) : List RequestEvent :=
  (valuesOf records).filterMap
    (fun record =>
      if record.response.isSome then none else some (toRequestEvent record))

/-- In-memory state relevant to restore/initialize: the live records index
and the staging list `cached`. -/
structure HistoryState where
  records : Records
  cached : List JsonRpcRecord
deriving DecidableEq, Repr

/-- Embedding of `JsonRpcHistory.restore`: stage persisted records, refusing (log, throw,
catch — so the call returns normally) when the live index is non-empty. -/
def restore (st : HistoryState) (persisted : Option (List JsonRpcRecord)) :
    HistoryState × RestoreOutcome :=
  match persisted with
  | none => (st, RestoreOutcome.noData)
  | some persistedRecords =>
    if persistedRecords.isEmpty then (st, RestoreOutcome.emptyData)
    else if st.records.length ≠ 0 then (st, RestoreOutcome.conflictLogged)
    else ({ st with cached := persistedRecords }, RestoreOutcome.restored)

/-- Embedding of `JsonRpcHistory.reset`: merge the staging list into the live index. -/
def reset (st : HistoryState) : HistoryState :=
  { st with records := st.cached.foldl (fun m r => mapSet m r.id r) st.records }

/-- Embedding of `JsonRpcHistory.init` / `initialize`: restore, merge, clear the staging
list and emit the readiness signal (the returned Bool: the signal fired). -/
def init (st : HistoryState) (persisted : Option (List JsonRpcRecord)) :
    HistoryState × RestoreOutcome × Bool :=
  let step := restore st persisted
  let st2 := reset step.1
  ({ st2 with cached := [] }, step.2, true)

end History

namespace Expirer

/-- Embedding of `EXPIRER_CONTEXT` constant (the component name used in errors). -/
def EXPIRER_CONTEXT : String := "expirer"

/-- Embedding of `ExpirerTypes.Expiration`: `{topic, expiry}` with `expiry` an absolute
timestamp in seconds. -/
structure Expiration where
  topic : String
  expiry : Nat
deriving DecidableEq, Repr

/-- Errors raised by Expirer operations. -/
inductive ExpirerError where
  | noMatchingId (context : String) (topic : String)
  | notInitialized (context : String)
deriving DecidableEq, Repr

/-- Events emitted by the Expirer. -/
inductive ExpirerEvent where
  | created (topic : String) (expiration : Expiration)
  | expired (topic : String) (expiration : Expiration)
  | deleted (topic : String) (expiration : Expiration)
deriving DecidableEq, Repr

/-- The expirations map, keyed by topic. -/
abbrev Expirations := List (String × Expiration)

/-- Expirer state: the live index, the restore staging list, and the
synchronous `initialized` flag. -/
structure ExpirerState where
  expirations : Expirations
  cached : List Expiration
  initialized : Bool
deriving DecidableEq, Repr

/-- Embedding of `toMiliseconds` (external util): seconds to milliseconds. -/
def toMiliseconds (seconds : Nat) : Nat := seconds * 1000

/-- Embedding of `Expirer.isInitialized`: throws `NOT_INITIALIZED` when the flag is not
set (a synchronous check, not an awaited gate). -/
def isInitialized (s : ExpirerState) : Except ExpirerError Unit :=
  if s.initialized then Except.ok ()
  else Except.error (ExpirerError.notInitialized EXPIRER_CONTEXT)

/-- Embedding of `Expirer.checkExpiry(topic, expiration)` acting on a given map:
when `toMiliseconds(expiry) - now <= 0`, run `expire` (delete the entry and
emit `expired`). `now` is `Date.now()` in milliseconds. -/
def checkExpiry (topic : String) (expiration : Expiration) (now : Nat)
    (expirations : Expirations) : Expirations × List ExpirerEvent :=
  if toMiliseconds expiration.expiry ≤ now then
    (mapDelete expirations topic, [ExpirerEvent.expired topic expiration])
  else (expirations, [])

/-- Embedding of `Expirer.set(topic, expiration)`: guard on the initialized flag, store
the entry, immediately check it against the current time, and emit `created`
regardless. -/
def set (s : ExpirerState) (topic : String) (expiration : Expiration) (now : Nat) :
    Except ExpirerError (ExpirerState × List ExpirerEvent) :=
  match isInitialized s with
  | Except.error e => Except.error e
  | Except.ok _ =>
    let exps1 := mapSet s.expirations topic expiration
    let checked := checkExpiry topic expiration now exps1
    Except.ok ({ s with expirations := checked.1 },
               checked.2 ++ [ExpirerEvent.created topic expiration])

/-- Embedding of `Expirer.getExpiration(topic)`: throw `NO_MATCHING_ID` when absent. -/
def getExpiration (s : ExpirerState) (topic : String) : Except ExpirerError Expiration :=
  match mapGet s.expirations topic with
  | none => Except.error (ExpirerError.noMatchingId EXPIRER_CONTEXT topic)
  | some expiration => Except.ok expiration

/-- Embedding of `Expirer.get(topic)`: guard on the initialized flag, then look up. -/
def get (s : ExpirerState) (topic : String) : Except ExpirerError Expiration :=
  match isInitialized s with
  | Except.error e => Except.error e
  | Except.ok _ => getExpiration s topic

/-- Embedding of `Expirer.has(topic)`: attempt the lookup, treating the not-found error
as `false`. -/
def has (s : ExpirerState) (topic : String) : Bool :=
  match getExpiration s topic with
  | Except.error _ => false
  | Except.ok _ => true

/-- Embedding of `Expirer.del(topic)`: guard on the initialized flag; when the entry
exists, delete it and emit `deleted`; silent no-op otherwise. -/
def del (s : ExpirerState) (topic : String) :
    Except ExpirerError (ExpirerState × List ExpirerEvent) :=
  match isInitialized s with
  | Except.error e => Except.error e
  | Except.ok _ =>
    if has s topic then
      match getExpiration s topic with
      | Except.error e => Except.error e
      | Except.ok expiration =>
        Except.ok ({ s with expirations := mapDelete s.expirations topic },
                   [ExpirerEvent.deleted topic expiration])
    else Except.ok (s, [])

/-- The heartbeat sweep `checkExpirations`, iterating `checkExpiry` over a
snapshot of the entries while threading the live map. -/
def sweepGo (now : Nat) :
    List (String × Expiration) → Expirations → Expirations × List ExpirerEvent
  | [], acc => (acc, [])
  | (topic, expiration) :: rest, acc =>
    let checked := checkExpiry topic expiration now acc
    let next := sweepGo now rest checked.1
    (next.1, checked.2 ++ next.2)

/-- Embedding of `Expirer.checkExpirations`: on a heartbeat pulse, re-check every entry
against the current time. -/
def checkExpirations (expirations : Expirations) (now : Nat) :
    Expirations × List ExpirerEvent :=
  sweepGo now expirations expirations

/-- Embedding of `Expirer.restore`: stage persisted expirations, refusing (log, throw,
catch — so the call returns normally) when the live index is non-empty. -/
def restore (s : ExpirerState) (persisted : Option (List Expiration)) :
    ExpirerState × RestoreOutcome :=
  match persisted with
  | none => (s, RestoreOutcome.noData)
  | some persistedList =>
    if persistedList.isEmpty then (s, RestoreOutcome.emptyData)
    else if s.expirations.length ≠ 0 then (s, RestoreOutcome.conflictLogged)
    else ({ s with cached := persistedList }, RestoreOutcome.restored)

/-- Embedding of `Expirer.init`: when not yet initialized, restore, merge the staging
list into the live index, clear it and set the initialized flag. -/
def init (s : ExpirerState) (persisted : Option (List Expiration)) :
    ExpirerState × Option RestoreOutcome :=
  if s.initialized then (s, none)
  else
    let step := restore s persisted
    let exps := step.1.cached.foldl (fun m e => mapSet m e.topic e) step.1.expirations
    ({ expirations := exps, cached := [], initialized := true }, some step.2)

end Expirer

/-! Helper lemmas about the association-list map operations. -/

theorem mapGet_mapSet_self {κ α : Type} [DecidableEq κ] (m : List (κ × α)) (k : κ) (v : α) :
    mapGet (mapSet m k v) k = some v := by
  induction m with
  | nil => simp [mapSet, mapGet]
  | cons hd tl ih =>
    obtain ⟨k1, v1⟩ := hd
    by_cases h : k1 = k
    · simp [mapSet, mapGet, h]
    · simp [mapSet, mapGet, h, ih]

theorem mapGet_mapDelete_self {κ α : Type} [DecidableEq κ] (m : List (κ × α)) (k : κ) :
    mapGet (mapDelete m k) k = none := by
  induction m with
  | nil => simp [mapDelete, mapGet]
  | cons hd tl ih =>
    obtain ⟨k1, v1⟩ := hd
    by_cases h : k1 = k
    · simp [mapDelete, h, ih]
    · simp [mapDelete, mapGet, h, ih]

theorem mapGet_mapDelete_none {κ α : Type} [DecidableEq κ] (m : List (κ × α)) (k k2 : κ)
    (h : mapGet m k = none) : mapGet (mapDelete m k2) k = none := by
  induction m with
  | nil => simp [mapDelete, mapGet]
  | cons hd tl ih =>
    obtain ⟨k1, v1⟩ := hd
    by_cases h1 : k1 = k
    · simp [mapGet, h1] at h
    · simp [mapGet, h1] at h
      by_cases h2 : k1 = k2
      · simp [mapDelete, h2, ih h]
      · simp [mapDelete, mapGet, h1, h2, ih h]

theorem mapGet_mem {κ α : Type} [DecidableEq κ] (m : List (κ × α)) (k : κ) (v : α)
    (h : mapGet m k = some v) : (k, v) ∈ m := by
  induction m with
  | nil => simp [mapGet] at h
  | cons hd tl ih =>
    obtain ⟨k1, v1⟩ := hd
    by_cases h1 : k1 = k
    · simp [mapGet, h1] at h
      simp [h1, h]
    · simp [mapGet, h1] at h
      simp [ih h]

/-! Helper lemmas about the Publisher sweep. -/

theorem checkQueueGo_requests (hashMessage : String → String)
    (transport : Publisher.RelayRequest → Except String Unit)
    (snap : List (String × Publisher.Params)) (acc : Publisher.Queue) :
    (Publisher.checkQueueGo hashMessage transport snap acc).2
      = snap.map (fun kp => Publisher.retryRequest kp.2) := by
  induction snap generalizing acc with
  | nil => simp [Publisher.checkQueueGo]
  | cons hd tl ih =>
    obtain ⟨k1, p1⟩ := hd
    simp [Publisher.checkQueueGo, ih]

/-- Claim C1: `Publisher.publish(topic, message, opts)` inserts the entry
`{topic, message, options}` into the queue under the message fingerprint
before the transport submit call; on success the fingerprint is removed from
the queue; on failure the queue entry is left in place and the transport
error is re-raised to the caller. -/
theorem claim_C1 (hashMessage : String → String) (queue : Publisher.Queue)
    (topic message : String) (opts : Option Publisher.PublishOptions)
    (transport : Except String Unit) :
    let params : Publisher.Params :=
      { topic := topic, message := message
        opts := { ttl := Publisher.resolveTtl opts
                  relay := Publisher.getRelayProtocolName opts
                  prompt := Publisher.resolvePrompt opts } }
    let hash := hashMessage message
    let r := Publisher.publish hashMessage queue topic message opts transport
    r.trace.take 2 = [Publisher.PublishStep.queueInsert hash params,
                      Publisher.PublishStep.transportSubmit r.request]
  ∧ (transport = Except.ok () →
       mapGet r.queue hash = none ∧ r.outcome = Except.ok ()
       ∧ r.trace = [Publisher.PublishStep.queueInsert hash params,
                    Publisher.PublishStep.transportSubmit r.request,
                    Publisher.PublishStep.queueDelete hash])
  ∧ (∀ e, transport = Except.error e →
       mapGet r.queue hash = some params ∧ r.outcome = Except.error e
       ∧ r.trace = [Publisher.PublishStep.queueInsert hash params,
                    Publisher.PublishStep.transportSubmit r.request]) := by
  cases transport with
  | ok u =>
    cases u
    exact ⟨rfl, fun _ => ⟨mapGet_mapDelete_self _ _, rfl, rfl⟩,
           fun e he => Except.noConfusion he⟩
  | error e =>
    refine ⟨rfl, fun h => Except.noConfusion h, fun e2 he => ?_⟩
    injection he with h
    subst h
    exact ⟨mapGet_mapSet_self _ _ _, rfl, rfl⟩

/-- Witness for C1 at concrete inputs, one per transport outcome. -/
theorem claim_C1_witness :
    mapGet ((Publisher.publish (fun s => s) [] "t" "m" none (Except.ok ())).queue) "m" = none
  ∧ mapGet ((Publisher.publish (fun s => s) [] "t" "m" none (Except.error "boom")).queue) "m"
      = some { topic := "t", message := "m"
               opts := { ttl := Publisher.PUBLISHER_DEFAULT_TTL
                         relay := Publisher.RELAYER_DEFAULT_PROTOCOL
                         prompt := false } }
  ∧ (Publisher.publish (fun s => s) [] "t" "m" none (Except.error "boom")).outcome
      = Except.error "boom" :=
  ⟨((claim_C1 (fun s => s) [] "t" "m" none (Except.ok ())).2.1 rfl).1,
   ((claim_C1 (fun s => s) [] "t" "m" none (Except.error "boom")).2.2 "boom" rfl).1,
   ((claim_C1 (fun s => s) [] "t" "m" none (Except.error "boom")).2.2 "boom" rfl).2.1⟩

/-- Claim C9: every entry resubmitted by the heartbeat sweep
(`Publisher.checkQueue`) goes out with the `prompt` field omitted entirely,
while the initial attempt made by `publish` always carries a `prompt` field;
hence a retried submission is never identical to the original one. -/
theorem claim_C9 (hashMessage : String → String) (queue : Publisher.Queue)
    (transport : Publisher.RelayRequest → Except String Unit)
    (q0 : Publisher.Queue) (topic message : String)
    (opts : Option Publisher.PublishOptions) (tr : Except String Unit) :
    (Publisher.checkQueue hashMessage queue transport).2
        = queue.map (fun kp => Publisher.retryRequest kp.2)
  ∧ (∀ p : Publisher.Params, (Publisher.retryRequest p).params.prompt = none)
  ∧ (Publisher.publish hashMessage q0 topic message opts tr).request.params.prompt
        = some (Publisher.resolvePrompt opts)
  ∧ (∀ p : Publisher.Params,
       Publisher.retryRequest p
         ≠ Publisher.rpcPublish p.topic p.message p.opts.ttl p.opts.relay
             (some p.opts.prompt)) := by
  refine ⟨checkQueueGo_requests hashMessage transport queue queue, fun p => rfl, ?_, ?_⟩
  · cases tr with
    | ok u => cases u; rfl
    | error e => rfl
  · intro p h
    simp [Publisher.retryRequest, Publisher.rpcPublish] at h

/-- Witness for C9: a queued entry whose original publish carried
`prompt = true` is retried with the prompt field omitted. -/
theorem claim_C9_witness :
    (Publisher.retryRequest
        { topic := "t", message := "m"
          opts := { ttl := 60, relay := { protocol := "waku" }, prompt := true } }).params.prompt
      = none
  ∧ Publisher.retryRequest
        { topic := "t", message := "m"
          opts := { ttl := 60, relay := { protocol := "waku" }, prompt := true } }
      ≠ Publisher.rpcPublish "t" "m" 60 { protocol := "waku" } (some true) :=
  ⟨(claim_C9 (fun s => s) [] (fun _ => Except.ok ()) [] "t" "m" none (Except.ok ())).2.1
      { topic := "t", message := "m"
        opts := { ttl := 60, relay := { protocol := "waku" }, prompt := true } },
   (claim_C9 (fun s => s) [] (fun _ => Except.ok ()) [] "t" "m" none (Except.ok ())).2.2.2
      { topic := "t", message := "m"
        opts := { ttl := 60, relay := { protocol := "waku" }, prompt := true } }⟩

/-- Claim C10: when `opts.ttl` is 0 (or missing — JS-falsy), both the queued
entry and the relay request carry the default TTL policy value, and no
option value can make the resolved ttl equal 0. -/
theorem claim_C10 (hashMessage : String → String) (queue : Publisher.Queue)
    (topic message : String) (opts : Publisher.PublishOptions) (tr : Except String Unit)
    (hfalsy : opts.ttl = some 0 ∨ opts.ttl = none) :
    let r := Publisher.publish hashMessage queue topic message (some opts) tr
    (∀ h p, Publisher.PublishStep.queueInsert h p ∈ r.trace
        → p.opts.ttl = Publisher.PUBLISHER_DEFAULT_TTL)
  ∧ r.request.params.ttl = Publisher.PUBLISHER_DEFAULT_TTL
  ∧ (∀ o : Option Publisher.PublishOptions, Publisher.resolveTtl o ≠ 0) := by
  have httl : Publisher.resolveTtl (some opts) = Publisher.PUBLISHER_DEFAULT_TTL := by
    rcases hfalsy with h | h <;> simp [Publisher.resolveTtl, h]
  have hnz : ∀ o : Option Publisher.PublishOptions, Publisher.resolveTtl o ≠ 0 := by
    intro o
    match o with
    | none => simp [Publisher.resolveTtl, Publisher.PUBLISHER_DEFAULT_TTL]
    | some o1 =>
      match ho : o1.ttl with
      | none => simp [Publisher.resolveTtl, ho, Publisher.PUBLISHER_DEFAULT_TTL]
      | some t =>
        by_cases ht : t = 0
        · simp [Publisher.resolveTtl, ho, ht, Publisher.PUBLISHER_DEFAULT_TTL]
        · simp [Publisher.resolveTtl, ho, ht]
  cases tr with
  | ok u =>
    cases u
    refine ⟨?_, httl, hnz⟩
    intro h p hp
    simp [Publisher.publish] at hp
    rw [hp.2, httl]
  | error e =>
    refine ⟨?_, httl, hnz⟩
    intro h p hp
    simp [Publisher.publish] at hp
    rw [hp.2, httl]

/-- Witness for C10: publishing with an explicit `ttl = 0` yields the
default TTL in the outgoing request. -/
theorem claim_C10_witness :
    (Publisher.publish (fun s => s) [] "t" "m"
        (some { ttl := some 0, relay := none, prompt := none })
        (Except.error "x")).request.params.ttl = Publisher.PUBLISHER_DEFAULT_TTL :=
  (claim_C10 (fun s => s) [] "t" "m" { ttl := some 0, relay := none, prompt := none }
      (Except.error "x") (Or.inl rfl)).2.1

/-- Claim C2: `JsonRpcHistory.set` is first-write-wins — once a record with
the same id exists, a second `set` (with any topic, request content or
chainId) leaves the records map unchanged, emits no event, and the stored
record still reflects the first write. -/
theorem claim_C2 (records : History.Records) (topic topic2 : String)
    (request request2 : History.JsonRpcRequest) (chainId chainId2 : Option String)
    (hid : request2.id = request.id) (hfresh : mapGet records request.id = none) :
    (History.set records topic request chainId).1
      = mapSet records request.id (History.mkRecord topic request chainId)
  ∧ History.set (History.set records topic request chainId).1 topic2 request2 chainId2
      = ((History.set records topic request chainId).1, [])
  ∧ mapGet (History.set (History.set records topic request chainId).1
        topic2 request2 chainId2).1 request.id
      = some (History.mkRecord topic request chainId)
  ∧ (∀ recs : History.Records, (mapGet recs request2.id).isSome = true →
       History.set recs topic2 request2 chainId2 = (recs, [])) := by
  have h1 : (History.set records topic request chainId).1
      = mapSet records request.id (History.mkRecord topic request chainId) := by
    simp [History.set, hfresh, History.mkRecord]
  have h2 : mapGet (History.set records topic request chainId).1 request2.id
      = some (History.mkRecord topic request chainId) := by
    rw [h1, hid]
    exact mapGet_mapSet_self _ _ _
  have hnoop : ∀ recs : History.Records, (mapGet recs request2.id).isSome = true →
      History.set recs topic2 request2 chainId2 = (recs, []) := by
    intro recs hsome
    simp [History.set, hsome]
  have h3 : History.set (History.set records topic request chainId).1 topic2 request2 chainId2
      = ((History.set records topic request chainId).1, []) :=
    hnoop _ (by rw [h2]; rfl)
  refine ⟨h1, h3, ?_, hnoop⟩
  rw [h3]
  show mapGet (History.set records topic request chainId).1 request.id = _
  rw [h1]
  exact mapGet_mapSet_self _ _ _

/-- Witness for C2: a second write with id 7 but different topic, method,
params and chainId is a no-op and the stored record is the first one. -/
theorem claim_C2_witness :
    History.set
        (History.set [] "a" { id := 7, method := "m", params := History.JsParams.undef } none).1
        "b" { id := 7, method := "n", params := History.JsParams.str "x" } (some "chain")
      = ((History.set [] "a" { id := 7, method := "m", params := History.JsParams.undef } none).1,
         [])
  ∧ mapGet (History.set
        (History.set [] "a" { id := 7, method := "m", params := History.JsParams.undef } none).1
        "b" { id := 7, method := "n", params := History.JsParams.str "x" } (some "chain")).1 7
      = some (History.mkRecord "a" { id := 7, method := "m", params := History.JsParams.undef }
          none) :=
  ⟨(claim_C2 [] "a" "b" { id := 7, method := "m", params := History.JsParams.undef }
      { id := 7, method := "n", params := History.JsParams.str "x" } none (some "chain")
      rfl rfl).2.1,
   (claim_C2 [] "a" "b" { id := 7, method := "m", params := History.JsParams.undef }
      { id := 7, method := "n", params := History.JsParams.str "x" } none (some "chain")
      rfl rfl).2.2.1⟩

/-- Claim C3: `JsonRpcHistory.resolve` is a no-op when the id is unknown or
the record already has a response; otherwise it stores exactly one of
`{error}` (error-shaped response) / `{result}` (result-shaped) and emits
`updated`; after two resolve calls for the same id the stored response is
the first resolution. -/
theorem claim_C3 (records : History.Records) (response response2 : History.JsonRpcResponse) :
    (mapGet records response.id = none → History.resolve records response = (records, []))
  ∧ (∀ r, mapGet records response.id = some r → r.response.isSome →
       History.resolve records response = (records, []))
  ∧ (∀ r, mapGet records response.id = some r → r.response = none →
       History.resolve records response
         = (mapSet records r.id { r with response := some (History.classifyResponse response) },
            [History.HistoryEvent.updated
               { r with response := some (History.classifyResponse response) }]))
  ∧ (∀ e, response.error = some e →
       History.classifyResponse response = History.StoredResponse.errorResp e)
  ∧ (response.error = none →
       History.classifyResponse response = History.StoredResponse.resultResp response.result)
  ∧ (∀ r, mapGet records response.id = some r → r.response = none → r.id = response.id →
       response2.id = response.id →
       mapGet (History.resolve (History.resolve records response).1 response2).1 response.id
         = some { r with response := some (History.classifyResponse response) }) := by
  have hnone : mapGet records response.id = none →
      History.resolve records response = (records, []) := by
    intro h
    simp [History.resolve, h]
  have hsome : ∀ r, mapGet records response.id = some r → r.response.isSome →
      History.resolve records response = (records, []) := by
    intro r hr hresp
    match hx : r.response with
    | none => rw [hx] at hresp; simp at hresp
    | some x => simp [History.resolve, hr, hx]
  have hwrite : ∀ r, mapGet records response.id = some r → r.response = none →
      History.resolve records response
        = (mapSet records r.id { r with response := some (History.classifyResponse response) },
           [History.HistoryEvent.updated
              { r with response := some (History.classifyResponse response) }]) := by
    intro r hr hresp
    simp [History.resolve, hr, hresp]
  refine ⟨hnone, hsome, hwrite, ?_, ?_, ?_⟩
  · intro e he
    simp [History.classifyResponse, he]
  · intro he
    simp [History.classifyResponse, he]
  · intro r hr hresp hrid h2id
    have hfst : (History.resolve records response).1
        = mapSet records r.id { r with response := some (History.classifyResponse response) } := by
      rw [hwrite r hr hresp]
    rw [hfst]
    have hget : mapGet
        (mapSet records r.id { r with response := some (History.classifyResponse response) })
        response2.id
        = some { r with response := some (History.classifyResponse response) } := by
      rw [h2id, ← hrid]
      exact mapGet_mapSet_self _ _ _
    have hstop : History.resolve
        (mapSet records r.id { r with response := some (History.classifyResponse response) })
        response2
        = (mapSet records r.id { r with response := some (History.classifyResponse response) },
           []) := by
      simp [History.resolve, hget]
    rw [hstop]
    show mapGet
        (mapSet records r.id { r with response := some (History.classifyResponse response) })
        response.id = _
    rw [← hrid]
    exact mapGet_mapSet_self _ _ _

/-- Witness for C3: a record resolved with a result keeps that result after
a second, error-shaped resolve for the same id. -/
theorem claim_C3_witness :
    mapGet (History.resolve
        (History.resolve
          [(7, { id := 7, topic := "a",
                 request := { method := "m", params := History.JsParams.null },
                 chainId := none, response := none })]
          { id := 7, error := none, result := some "ok" }).1
        { id := 7, error := some { code := 1, message := "late" }, result := none }).1 7
      = some { id := 7, topic := "a",
               request := { method := "m", params := History.JsParams.null },
               chainId := none,
               response := some (History.StoredResponse.resultResp (some "ok")) } :=
  (claim_C3
      [(7, { id := 7, topic := "a",
             request := { method := "m", params := History.JsParams.null },
             chainId := none, response := none })]
      { id := 7, error := none, result := some "ok" }
      { id := 7, error := some { code := 1, message := "late" }, result := none }).2.2.2.2.2
    { id := 7, topic := "a", request := { method := "m", params := History.JsParams.null },
      chainId := none, response := none }
    rfl rfl rfl rfl

/-- Claim C4: `JsonRpcHistory.get(topic, id)` fails with no-matching-id when
the id is unknown, fails with mismatched-topic when the stored topic differs
from the argument, and returns the stored record otherwise; in particular a
record created under topic A is rejected when read under topic B and
returned when read under topic A. -/
theorem claim_C4 (records : History.Records) (topic : String) (id : Nat)
    (topicA topicB : String) (request : History.JsonRpcRequest) (chainId : Option String)
    (hne : topicB ≠ topicA) :
    (mapGet records id = none →
       History.get records topic id
         = Except.error (History.HistoryError.noMatchingId History.HISTORY_CONTEXT id))
  ∧ (∀ r, mapGet records id = some r → r.topic ≠ topic →
       History.get records topic id
         = Except.error (History.HistoryError.mismatchedTopic History.HISTORY_CONTEXT id))
  ∧ (∀ r, mapGet records id = some r → r.topic = topic →
       History.get records topic id = Except.ok r)
  ∧ History.get (History.set [] topicA request chainId).1 topicB request.id
      = Except.error (History.HistoryError.mismatchedTopic History.HISTORY_CONTEXT request.id)
  ∧ History.get (History.set [] topicA request chainId).1 topicA request.id
      = Except.ok (History.mkRecord topicA request chainId) := by
  have hmiss : mapGet records id = none →
      History.get records topic id
        = Except.error (History.HistoryError.noMatchingId History.HISTORY_CONTEXT id) := by
    intro h
    simp [History.get, History.getRecord, h]
  have hbad : ∀ r, mapGet records id = some r → r.topic ≠ topic →
      History.get records topic id
        = Except.error (History.HistoryError.mismatchedTopic History.HISTORY_CONTEXT id) := by
    intro r hr ht
    simp [History.get, History.getRecord, hr, ht]
  have hok : ∀ r, mapGet records id = some r → r.topic = topic →
      History.get records topic id = Except.ok r := by
    intro r hr ht
    simp [History.get, History.getRecord, hr, ht]
  have hset : (History.set [] topicA request chainId).1
      = mapSet [] request.id (History.mkRecord topicA request chainId) := by
    simp [History.set, mapGet, History.mkRecord]
  have hget : mapGet (History.set [] topicA request chainId).1 request.id
      = some (History.mkRecord topicA request chainId) := by
    rw [hset]
    exact mapGet_mapSet_self _ _ _
  refine ⟨hmiss, hbad, hok, ?_, ?_⟩
  · simp [History.get, History.getRecord, hget, History.mkRecord, Ne.symm hne]
  · simp [History.get, History.getRecord, hget, History.mkRecord]

/-- Witness for C4: id 7 created under topic A: reading under topic B fails
with mismatched-topic, reading under topic A succeeds. -/
theorem claim_C4_witness :
    History.get
        (History.set [] "A" { id := 7, method := "m", params := History.JsParams.undef } none).1
        "B" 7
      = Except.error (History.HistoryError.mismatchedTopic History.HISTORY_CONTEXT 7)
  ∧ History.get
        (History.set [] "A" { id := 7, method := "m", params := History.JsParams.undef } none).1
        "A" 7
      = Except.ok (History.mkRecord "A"
          { id := 7, method := "m", params := History.JsParams.undef } none) :=
  ⟨(claim_C4 [] "x" 0 "A" "B" { id := 7, method := "m", params := History.JsParams.undef }
      none (by decide)).2.2.2.1,
   (claim_C4 [] "x" 0 "A" "B" { id := 7, method := "m", params := History.JsParams.undef }
      none (by decide)).2.2.2.2⟩

/-- Claim C7: the derived `pending` view contains exactly the envelopes
`{topic, request, chainId}` of the records with no response, and none for a
record that has a response; it is a function of the current records. -/
theorem claim_C7 (records : History.Records) :
    (∀ e, e ∈ History.pending records
        ↔ ∃ record, record ∈ History.valuesOf records ∧ record.response = none
            ∧ e = History.toRequestEvent record)
  ∧ (History.pending records).length
      = ((History.valuesOf records).filter (fun r => r.response.isNone)).length := by
  constructor
  · intro e
    have aux : ∀ (record : History.JsonRpcRecord),
        ((if record.response.isSome then none else some (History.toRequestEvent record))
            = some e)
          ↔ (record.response = none ∧ e = History.toRequestEvent record) := by
      intro record
      cases hx : record.response with
      | none => simp [eq_comm]
      | some x => simp
    simp [History.pending, List.mem_filterMap, aux]
  · induction records with
    | nil => rfl
    | cons hd tl ih =>
      obtain ⟨k1, r1⟩ := hd
      cases hx : r1.response with
      | none =>
        simp [History.pending, History.valuesOf, hx] at ih ⊢
        exact ih
      | some x =>
        simp [History.pending, History.valuesOf, hx] at ih ⊢
        exact ih

/-- Witness for C7: on a map with one pending and one resolved record, the
pending view contains the pending envelope and has length one. -/
theorem claim_C7_witness :
    History.toRequestEvent
        { id := 1, topic := "a", request := { method := "m", params := History.JsParams.null },
          chainId := none, response := none }
      ∈ History.pending
        [(1, { id := 1, topic := "a",
               request := { method := "m", params := History.JsParams.null },
               chainId := none, response := none }),
         (2, { id := 2, topic := "a",
               request := { method := "n", params := History.JsParams.null },
               chainId := none,
               response := some (History.StoredResponse.resultResp none) })]
  ∧ (History.pending
        [(1, { id := 1, topic := "a",
               request := { method := "m", params := History.JsParams.null },
               chainId := none, response := none }),
         (2, { id := 2, topic := "a",
               request := { method := "n", params := History.JsParams.null },
               chainId := none,
               response := some (History.StoredResponse.resultResp none) })]).length = 1 :=
  ⟨((claim_C7
      [(1, { id := 1, topic := "a",
             request := { method := "m", params := History.JsParams.null },
             chainId := none, response := none }),
       (2, { id := 2, topic := "a",
             request := { method := "n", params := History.JsParams.null },
             chainId := none,
             response := some (History.StoredResponse.resultResp none) })]).1
      (History.toRequestEvent
        { id := 1, topic := "a", request := { method := "m", params := History.JsParams.null },
          chainId := none, response := none })).mpr
    ⟨{ id := 1, topic := "a", request := { method := "m", params := History.JsParams.null },
       chainId := none, response := none }, by simp [History.valuesOf], rfl, rfl⟩,
   ((claim_C7
      [(1, { id := 1, topic := "a",
             request := { method := "m", params := History.JsParams.null },
             chainId := none, response := none }),
       (2, { id := 2, topic := "a",
             request := { method := "n", params := History.JsParams.null },
             chainId := none,
             response := some (History.StoredResponse.resultResp none) })]).2).trans rfl⟩


/-! Helper lemmas about the Expirer sweep. -/

theorem checkExpiry_none (topic k : String) (e : Expirer.Expiration) (now : Nat)
    (exps : Expirer.Expirations) (h : mapGet exps k = none) :
    mapGet (Expirer.checkExpiry topic e now exps).1 k = none := by
  unfold Expirer.checkExpiry
  split
  · exact mapGet_mapDelete_none _ _ _ h
  · exact h

theorem sweepGo_none (now : Nat) (snap : List (String × Expirer.Expiration))
    (acc : Expirer.Expirations) (k : String) (h : mapGet acc k = none) :
    mapGet (Expirer.sweepGo now snap acc).1 k = none := by
  induction snap generalizing acc with
  | nil => exact h
  | cons hd tl ih =>
    obtain ⟨t1, e1⟩ := hd
    exact ih _ (checkExpiry_none t1 k e1 now acc h)

theorem sweepGo_expired (now : Nat) (snap : List (String × Expirer.Expiration))
    (acc : Expirer.Expirations) (topic : String) (e : Expirer.Expiration)
    (hmem : (topic, e) ∈ snap) (helapsed : Expirer.toMiliseconds e.expiry ≤ now) :
    Expirer.ExpirerEvent.expired topic e ∈ (Expirer.sweepGo now snap acc).2
  ∧ mapGet (Expirer.sweepGo now snap acc).1 topic = none := by
  induction snap generalizing acc with
  | nil => simp at hmem
  | cons hd tl ih =>
    obtain ⟨t1, e1⟩ := hd
    simp only [Expirer.sweepGo]
    rcases List.mem_cons.mp hmem with heq | htl
    · injection heq with h1 h2
      subst h1
      subst h2
      have hch : Expirer.checkExpiry topic e now acc
          = (mapDelete acc topic, [Expirer.ExpirerEvent.expired topic e]) := by
        simp [Expirer.checkExpiry, helapsed]
      rw [hch]
      constructor
      · simp
      · exact sweepGo_none now tl _ topic (mapGet_mapDelete_self acc topic)
    · obtain ⟨ha, hb⟩ := ih ((Expirer.checkExpiry t1 e1 now acc).1) htl
      exact ⟨List.mem_append.mpr (Or.inr ha), hb⟩

theorem sweepGo_events (now : Nat) (snap : List (String × Expirer.Expiration))
    (acc : Expirer.Expirations) (ev : Expirer.ExpirerEvent)
    (hev : ev ∈ (Expirer.sweepGo now snap acc).2) :
    ∃ t x, ev = Expirer.ExpirerEvent.expired t x := by
  induction snap generalizing acc with
  | nil => simp [Expirer.sweepGo] at hev
  | cons hd tl ih =>
    obtain ⟨t1, e1⟩ := hd
    simp only [Expirer.sweepGo] at hev
    rcases List.mem_append.mp hev with h1 | h2
    · revert h1
      unfold Expirer.checkExpiry
      split
      · intro h1
        simp at h1
        exact ⟨t1, e1, h1⟩
      · intro h1
        simp at h1
    · exact ih _ h2

/-- Counterexample to claim C5: `Expirer.set` is a public operation, yet
called before initialization it raises the not-initialized error instead of
suspending — the error branch is reachable from a public operation. -/
theorem claim_C5_counterexample :
    Expirer.set { expirations := [], cached := [], initialized := false } "topic"
        { topic := "topic", expiry := 1 } 0
      = Except.error (Expirer.ExpirerError.notInitialized Expirer.EXPIRER_CONTEXT) := rfl

/-- Claim C5 (amended): History public operations never raise
not-initialized (their readiness gate awaits the init signal instead of
raising; `set`/`resolve` are total on the model and `get` only raises lookup
errors), but the Expirer checks a synchronous `initialized` flag:
`set`/`get`/`del` raise not-initialized exactly when called before `init`
has completed, and never once it has. -/
theorem claim_C5_amended (records : History.Records) (topic : String) (id : Nat)
    (s : Expirer.ExpirerState) (e : Expirer.Expiration) (now : Nat) :
    (∀ err, History.get records topic id = Except.error err
        → err ≠ History.HistoryError.notInitialized History.HISTORY_CONTEXT)
  ∧ (s.initialized = false →
       Expirer.set s topic e now
           = Except.error (Expirer.ExpirerError.notInitialized Expirer.EXPIRER_CONTEXT)
       ∧ Expirer.get s topic
           = Except.error (Expirer.ExpirerError.notInitialized Expirer.EXPIRER_CONTEXT)
       ∧ Expirer.del s topic
           = Except.error (Expirer.ExpirerError.notInitialized Expirer.EXPIRER_CONTEXT))
  ∧ (s.initialized = true →
       (∀ err, Expirer.set s topic e now ≠ Except.error err)
       ∧ (∀ err, Expirer.get s topic = Except.error err
            → err ≠ Expirer.ExpirerError.notInitialized Expirer.EXPIRER_CONTEXT)
       ∧ (∀ err, Expirer.del s topic ≠ Except.error err)) := by
  refine ⟨?_, ?_, ?_⟩
  · intro err herr hcontra
    subst hcontra
    cases hx : mapGet records id with
    | none => simp [History.get, History.getRecord, hx] at herr
    | some r =>
      by_cases ht : r.topic = topic
      · simp [History.get, History.getRecord, hx, ht] at herr
      · simp [History.get, History.getRecord, hx, ht] at herr
  · intro h
    refine ⟨?_, ?_, ?_⟩
    · simp [Expirer.set, Expirer.isInitialized, h]
    · simp [Expirer.get, Expirer.isInitialized, h]
    · simp [Expirer.del, Expirer.isInitialized, h]
  · intro h
    refine ⟨?_, ?_, ?_⟩
    · intro err hcontra
      simp [Expirer.set, Expirer.isInitialized, h] at hcontra
    · intro err herr hcontra
      subst hcontra
      cases hx : mapGet s.expirations topic with
      | none => simp [Expirer.get, Expirer.isInitialized, h, Expirer.getExpiration, hx] at herr
      | some x => simp [Expirer.get, Expirer.isInitialized, h, Expirer.getExpiration, hx] at herr
    · intro err hcontra
      cases hx : mapGet s.expirations topic with
      | none =>
        simp [Expirer.del, Expirer.isInitialized, h, Expirer.has, Expirer.getExpiration, hx]
          at hcontra
      | some x =>
        simp [Expirer.del, Expirer.isInitialized, h, Expirer.has, Expirer.getExpiration, hx]
          at hcontra

/-- Witness for the amended C5 at concrete inputs: before init the Expirer
operations raise not-initialized; after init `set` cannot raise. -/
theorem claim_C5_amended_witness :
    (Expirer.get { expirations := [], cached := [], initialized := false } "t"
        = Except.error (Expirer.ExpirerError.notInitialized Expirer.EXPIRER_CONTEXT))
  ∧ (∀ err, Expirer.set { expirations := [], cached := [], initialized := true } "t"
        { topic := "t", expiry := 9 } 0 ≠ Except.error err) :=
  ⟨((claim_C5_amended [] "t" 0 { expirations := [], cached := [], initialized := false }
      { topic := "t", expiry := 9 } 0).2.1 rfl).2.1,
   ((claim_C5_amended [] "t" 0 { expirations := [], cached := [], initialized := true }
      { topic := "t", expiry := 9 } 0).2.2 rfl).1⟩

/-- Claim C6: for History and Expirer, a restore that finds non-empty
persisted data while the live index is already non-empty is refused: nothing
is merged, the live index is unchanged, the condition is only logged
(`RestoreOutcome.conflictLogged` — the thrown error is swallowed by the
catch), and initialization still completes (History emits its readiness
signal; the Expirer ends initialized) with the in-memory state it had. -/
theorem claim_C6 (hst : History.HistoryState) (persistedH : List History.JsonRpcRecord)
    (es : Expirer.ExpirerState) (persistedE : List Expirer.Expiration)
    (hH1 : persistedH ≠ []) (hH2 : hst.records ≠ []) (hH3 : hst.cached = [])
    (hE1 : persistedE ≠ []) (hE2 : es.expirations ≠ []) (hE3 : es.initialized = false)
    (hE4 : es.cached = []) :
    History.init hst (some persistedH)
      = ({ records := hst.records, cached := [] }, RestoreOutcome.conflictLogged, true)
  ∧ Expirer.init es (some persistedE)
      = ({ expirations := es.expirations, cached := [], initialized := true },
         some RestoreOutcome.conflictLogged) := by
  constructor
  · have hres : History.restore hst (some persistedH)
        = (hst, RestoreOutcome.conflictLogged) := by
      simp [History.restore, List.isEmpty_iff, hH1, List.length_eq_zero, hH2]
    simp [History.init, hres, History.reset, hH3]
  · have hres : Expirer.restore es (some persistedE)
        = (es, RestoreOutcome.conflictLogged) := by
      simp [Expirer.restore, List.isEmpty_iff, hE1, List.length_eq_zero, hE2]
    simp [Expirer.init, hres, hE3, hE4]

/-- Witness for C6 at concrete non-empty live indexes and persisted data. -/
theorem claim_C6_witness :
    History.init
        { records := [(1, { id := 1, topic := "a",
                            request := { method := "m", params := History.JsParams.null },
                            chainId := none, response := none })], cached := [] }
        (some [{ id := 2, topic := "b",
                 request := { method := "n", params := History.JsParams.null },
                 chainId := none, response := none }])
      = ({ records := [(1, { id := 1, topic := "a",
                             request := { method := "m", params := History.JsParams.null },
                             chainId := none, response := none })], cached := [] },
         RestoreOutcome.conflictLogged, true)
  ∧ Expirer.init
        { expirations := [("t", { topic := "t", expiry := 5 })], cached := [],
          initialized := false }
        (some [{ topic := "u", expiry := 9 }])
      = ({ expirations := [("t", { topic := "t", expiry := 5 })], cached := [],
           initialized := true },
         some RestoreOutcome.conflictLogged) :=
  claim_C6
    { records := [(1, { id := 1, topic := "a",
                        request := { method := "m", params := History.JsParams.null },
                        chainId := none, response := none })], cached := [] }
    [{ id := 2, topic := "b", request := { method := "n", params := History.JsParams.null },
       chainId := none, response := none }]
    { expirations := [("t", { topic := "t", expiry := 5 })], cached := [],
      initialized := false }
    [{ topic := "u", expiry := 9 }]
    (by simp) (by simp) rfl (by simp) (by simp) rfl rfl

/-- Claim C8: `Expirer.set` with an already-past expiry removes the entry
synchronously and emits `expired` (then `created` regardless) — the same
per-entry outcome (entry removed, `expired` and never `deleted` emitted)
that a heartbeat sweep produces for a stored entry whose expiry has
elapsed. -/
theorem claim_C8 (s : Expirer.ExpirerState) (topic : String) (e : Expirer.Expiration)
    (now later : Nat) (hinit : s.initialized = true) :
    (Expirer.toMiliseconds e.expiry ≤ now →
       Expirer.set s topic e now
           = Except.ok ({ s with expirations := mapDelete (mapSet s.expirations topic e) topic },
                        [Expirer.ExpirerEvent.expired topic e,
                         Expirer.ExpirerEvent.created topic e])
       ∧ mapGet (mapDelete (mapSet s.expirations topic e) topic) topic = none)
  ∧ (now < Expirer.toMiliseconds e.expiry →
       Expirer.set s topic e now
           = Except.ok ({ s with expirations := mapSet s.expirations topic e },
                        [Expirer.ExpirerEvent.created topic e])
       ∧ mapGet (mapSet s.expirations topic e) topic = some e)
  ∧ (∀ exps : Expirer.Expirations, mapGet exps topic = some e →
       Expirer.toMiliseconds e.expiry ≤ later →
         Expirer.ExpirerEvent.expired topic e ∈ (Expirer.checkExpirations exps later).2
       ∧ mapGet (Expirer.checkExpirations exps later).1 topic = none
       ∧ (∀ ev, ev ∈ (Expirer.checkExpirations exps later).2
            → ∃ t x, ev = Expirer.ExpirerEvent.expired t x)) := by
  refine ⟨?_, ?_, ?_⟩
  · intro h
    constructor
    · simp [Expirer.set, Expirer.isInitialized, hinit, Expirer.checkExpiry, h]
    · exact mapGet_mapDelete_self _ _
  · intro h
    have hnot : ¬ Expirer.toMiliseconds e.expiry ≤ now := by omega
    constructor
    · simp [Expirer.set, Expirer.isInitialized, hinit, Expirer.checkExpiry, hnot]
    · exact mapGet_mapSet_self _ _ _
  · intro exps hget hel
    have hmem := mapGet_mem exps topic e hget
    obtain ⟨h1, h2⟩ := sweepGo_expired later exps exps topic e hmem hel
    exact ⟨h1, h2, fun ev hev => sweepGo_events later exps exps ev hev⟩

/-- Witness for C8: an already-expired `set` removes the entry and emits
expired-then-created; a later sweep expires a stored entry the same way. -/
theorem claim_C8_witness :
    Expirer.set { expirations := [], cached := [], initialized := true } "t"
        { topic := "t", expiry := 1 } 2000
      = Except.ok ({ expirations := mapDelete (mapSet [] "t" { topic := "t", expiry := 1 }) "t"
                     cached := [], initialized := true },
          [Expirer.ExpirerEvent.expired "t" { topic := "t", expiry := 1 },
           Expirer.ExpirerEvent.created "t" { topic := "t", expiry := 1 }])
  ∧ Expirer.ExpirerEvent.expired "t" { topic := "t", expiry := 1 }
      ∈ (Expirer.checkExpirations [("t", { topic := "t", expiry := 1 })] 1000).2
  ∧ mapGet (Expirer.checkExpirations [("t", { topic := "t", expiry := 1 })] 1000).1 "t"
      = none :=
  ⟨((claim_C8 { expirations := [], cached := [], initialized := true } "t"
      { topic := "t", expiry := 1 } 2000 1000 rfl).1 (by decide)).1,
   ((claim_C8 { expirations := [], cached := [], initialized := true } "t"
      { topic := "t", expiry := 1 } 2000 1000 rfl).2.2
      [("t", { topic := "t", expiry := 1 })] (by decide) (by decide)).1,
   (((claim_C8 { expirations := [], cached := [], initialized := true } "t"
      { topic := "t", expiry := 1 } 2000 1000 rfl).2.2
      [("t", { topic := "t", expiry := 1 })] (by decide) (by decide)).2).1⟩
